import Mathlib

/-!
Verification of the sb-bacdive-tools ingestion pipeline and query service.

JavaScript values flowing through the pipeline are modelled by the JSON-like
type `Jv`.  Property reads, JS truthiness, the logical-or defaulting idiom
`x || d`, optional chaining and strict-mode property assignment are each given
explicit executable semantics, and every source function is translated on top
of them.  Network responses are oracles passed in as explicit arguments
(`Except Unit Jv`, error = axios rejection).
-/

/-- JSON-like JavaScript values.  JS numbers only ever hold integral ids and
counts in this code base, so they are modelled by `Int`. -/
inductive Jv : Type where
  | null : Jv
  | bool : Bool → Jv
  | num : Int → Jv
  | str : String → Jv
  | arr : List Jv → Jv
  | obj : List (String × Jv) → Jv

/-- JS truthiness: `null`/`undefined`, `false`, `0` and `""` are falsy;
objects and arrays (even empty) are truthy. -/
def truthy : Jv → Bool
  | Jv.null => false
  | Jv.bool b => b
  | Jv.num n => decide (n ≠ 0)
  | Jv.str s => decide (s ≠ "")
  | Jv.arr _ => true
  | Jv.obj _ => true

/-- Field lookup in an object's field list (first match wins, as in JS
objects, whose keys are unique anyway). -/
def lookupField : List (String × Jv) → String → Option Jv
  | [], _ => none
  | (k, v) :: rest, key => if k = key then some v else lookupField rest key

/-- Property read `v[key]`; `none` models the JS `undefined` result.  Reads on
primitives and arrays with non-index keys yield `undefined` in JS, hence
`none` here. -/
def getField : Jv → String → Option Jv
  | Jv.obj fs, k => lookupField fs k
  | _, _ => none

/-- Optional-chained read `o?.[key]`: short-circuits to `undefined` when the
base is `null`/`undefined`. -/
def getO : Option Jv → String → Option Jv
  | none, _ => none
  | some v, k => getField v k

/-- Chained property path read starting from a value. -/
def getPath (v : Jv) (path : List String) : Option Jv :=
  path.foldl getO (some v)

/-- The JS defaulting idiom `x || d`: keeps `x` when truthy, otherwise the
default (`undefined || d` also gives `d`). -/
def jsOr (o : Option Jv) (d : Jv) : Jv :=
  match o with
  | some v => if truthy v then v else d
  | none => d

/-- JS object property assignment on a field list: an existing key is
overwritten in place, a new key is appended at the end. -/
def setFields : List (String × Jv) → String → Jv → List (String × Jv)
  | [], k, v => [(k, v)]
  | (k', v') :: rest, k, v =>
    if k' = k then (k, v) :: rest else (k', v') :: setFields rest k v

/-- Truthiness of a possibly-`undefined` value (`none` is falsy). -/
def truthyO : Option Jv → Bool
  | none => false
  | some v => truthy v

/-- The string a value turns into when used as an object key (`results[id]`):
numbers are stringified; only numbers and strings reach this position in the
translated code. -/
def idKey : Jv → String
  | Jv.num n => toString n
  | Jv.str s => s
  | Jv.bool b => toString b
  | _ => ""

/-- `id === "0"`: strict equality against the string literal, true only for
the string value `"0"`. -/
def isStrZero : Jv → Bool
  | Jv.str s => decide (s = "0")
  | _ => false

/-- `fetchDetailsForId` lines 75-79: ensure a `General` group exists, then
unconditionally write the requested id into `General["BacDive-ID"]`.
`none` models the strict-mode TypeError raised when assigning a property on a
primitive (the surrounding try/catch turns it into a `null` return); an array
target is conservatively treated the same way. -/
def injectId (detail : Jv) (id : Jv) : Option Jv :=
  match detail with
  | Jv.obj fs =>
    match lookupField fs "General" with
    | some g =>
      if truthy g then
        match g with
        | Jv.obj gfs =>
          some (Jv.obj (setFields fs "General" (Jv.obj (setFields gfs "BacDive-ID" id))))
        | _ => none
      else
        some (Jv.obj (setFields fs "General" (Jv.obj [("BacDive-ID", id)])))
    | none => some (Jv.obj (setFields fs "General" (Jv.obj [("BacDive-ID", id)])))
  | _ => none

/-- `fetchDetailsForId` (ingestion script, lines 53-87).  `resp` is the
network oracle: `Except.error` models an axios rejection (network or HTTP
failure), `Except.ok data` a resolved `response.data`.  The second component
counts the network requests issued.  Every early `return null` of the source
appears as a `(none, _)` branch. -/
def fetchDetailsForId (resp : Except Unit Jv) (id : Jv) : Option Jv × Nat :=
  if ¬ truthy id ∨ isStrZero id then (none, 0)
  else
    match resp with
    | Except.error _ => (none, 1)
    | Except.ok data =>
      match getField data "results" with
      | none => (none, 1)
      | some r =>
        if ¬ truthy r then (none, 1)
        else
          match getField r (idKey id) with
          | none => (none, 1)
          | some detail =>
            if ¬ truthy detail then (none, 1)
            else (injectId detail id, 1)

/-- The object literal built by `transformDetails` (lines 99-132), given the
raw record and the identifier read from `General["BacDive-ID"]`.  Every field
is the source's optional chain with the `|| null` (or `|| []` for keywords)
default. -/
def mkNormalized (raw : Jv) (identifier : Jv) : Jv :=
  Jv.obj [
    ("identifier", identifier),
    ("general", Jv.obj [
      ("description", jsOr (getPath raw ["General", "description"]) Jv.null),
      ("DSM_Number", jsOr (getPath raw ["General", "DSM-Number"]) Jv.null),
      ("NCBI_tax_id", jsOr (getPath raw ["General", "NCBI tax id", "NCBI tax id"]) Jv.null),
      ("keywords", jsOr (getPath raw ["General", "keywords"]) (Jv.arr []))]),
    ("taxonomy", Jv.obj [
      ("genus", jsOr (getPath raw ["Name and taxonomic classification", "genus"]) Jv.null),
      ("species", jsOr (getPath raw ["Name and taxonomic classification", "species"]) Jv.null),
      ("strain_designation",
        jsOr (getPath raw ["Name and taxonomic classification", "strain designation"]) Jv.null),
      ("type_strain",
        jsOr (getPath raw ["Name and taxonomic classification", "type strain"]) Jv.null),
      ("full_scientific_name",
        jsOr (getPath raw ["Name and taxonomic classification", "full scientific name"]) Jv.null)]),
    ("LPSN", jsOr (getPath raw ["Name and taxonomic classification", "LPSN"]) Jv.null),
    ("culture_conditions", Jv.obj [
      ("medium", jsOr (getPath raw ["Culture and growth conditions", "culture medium"]) Jv.null),
      ("temperatures",
        jsOr (getPath raw ["Culture and growth conditions", "culture temp"]) Jv.null)]),
    ("physiology_and_metabolism", Jv.obj [
      ("compound_production",
        jsOr (getPath raw ["Physiology and metabolism", "compound production"]) Jv.null),
      ("enzymes", jsOr (getPath raw ["Physiology and metabolism", "enzymes"]) Jv.null)]),
    ("biosafety", Jv.obj [
      ("level",
        jsOr (getPath raw ["Safety information", "risk assessment", "biosafety level"]) Jv.null),
      ("comment",
        jsOr (getPath raw ["Safety information", "risk assessment", "biosafety level comment"])
          Jv.null)]),
    ("sequence_information", jsOr (getPath raw ["Sequence information", "GC content"]) Jv.null),
    ("external_links", Jv.obj [
      ("culture_collections",
        jsOr (getPath raw ["External links", "culture collection no."]) Jv.null),
      ("literature", jsOr (getPath raw ["External links", "literature"]) Jv.null)])]

/-- `transformDetails` (ingestion script, lines 89-137).  The unguarded read
`rawData["General"]["BacDive-ID"]` throws exactly when
`getPath raw ["General", "BacDive-ID"]` is `none` and the base was
`null`/`undefined`; the try/catch turns that throw into a `null` return, so
both the throw and the plain-`undefined` outcomes collapse to `none` here. -/
def transformDetails (rawData : Jv) : Option Jv :=
  match getPath rawData ["General", "BacDive-ID"] with
  | none => none
  | some identifier =>
    if truthy identifier then some (mkNormalized rawData identifier) else none

/-- `Object.keys`: `none` models the TypeError thrown on `null`/`undefined`
(caught by the enumerator's try/catch); keys of strings and arrays are their
index strings, primitives have none. -/
def objKeys : Jv → Option (List String)
  | Jv.null => none
  | Jv.obj fs => some (fs.map Prod.fst)
  | Jv.arr xs => some ((List.range xs.length).map (fun i => toString i))
  | Jv.str s => some ((List.range s.length).map (fun i => toString i))
  | Jv.bool _ => some []
  | Jv.num _ => some []

/-- The `while (true)` page loop of `fetchIdsForGenus` (lines 22-43).
`net` maps a page number to its response; `fuel` bounds the unbounded JS
loop (theorems supply enough of it).  Returns the collected ids and the
number of page requests issued. -/
def enumGo (net : Nat → Except Unit Jv) : Nat → Nat → List String → List String × Nat
  | 0, _, acc => (acc, 0)
  | fuel + 1, page, acc =>
    match net page with
    | Except.error _ => (acc, 1)
    | Except.ok data =>
      match getField data "results" with
      | none => (acc, 1)
      | some r =>
        match objKeys r with
        | none => (acc, 1)
        | some newIds =>
          let acc' := acc ++ newIds
          if ¬ truthyO (getField data "next") then (acc', 1)
          else
            let rest := enumGo net fuel (page + 1) acc'
            (rest.1, rest.2 + 1)

/-- `fetchIdsForGenus` (ingestion script, lines 16-51): start at page 1 with
an empty accumulator. -/
def fetchIdsForGenus (net : Nat → Except Unit Jv) (fuel : Nat) : List String × Nat :=
  enumGo net fuel 1 []

/-- A taxon page response `{ results, next, count }`. -/
def mkPage (fields : List (String × Jv)) (next : Jv) (count : Jv) : Jv :=
  Jv.obj [("results", Jv.obj fields), ("next", next), ("count", count)]

/-- One iteration body of `main`'s for-loop (lines 147-163): fetch the id,
and if a detail came back push `transformDetails(detail)` — pushed as-is,
without checking the transform's own result, hence an accumulator of
`Option Jv`. -/
def procId (net : Nat → Except Unit Jv) (id : Nat) : Option (Option Jv) :=
  match (fetchDetailsForId (net id) (Jv.num (id : Int))).1 with
  | some detail => some (transformDetails detail)
  | none => none

/-- `main`'s for-loop (ingestion script, lines 147-163) over the remaining
ids, threading the accumulator and the checkpoint files written so far
(`id % interval == 0` boundaries, line 154). -/
def mainGo (net : Nat → Except Unit Jv) (interval : Nat) :
    List Nat → List (Option Jv) → List (Nat × List (Option Jv)) →
    List (Option Jv) × List (Nat × List (Option Jv))
  | [], results, cps => (results, cps)
  | id :: rest, results, cps =>
    let results' :=
      match procId net id with
      | some pushed => results ++ [pushed]
      | none => results
    let cps' := if id % interval = 0 then cps ++ [(id, results')] else cps
    mainGo net interval rest results' cps'

/-- `main` (ingestion script, lines 139-167) parameterised by the identifier
range and checkpoint interval (the source hard-codes 1, 27000 and 1000).
Returns the final dataset (first component, line 165) and the checkpoint
snapshots in the order written (second component). -/
def mainRun (net : Nat → Except Unit Jv) (startId endId interval : Nat) :
    List (Option Jv) × List (Nat × List (Option Jv)) :=
  mainGo net interval (List.range' startId (endId + 1 - startId)) [] []

/-!
Query service (`src/server.js`).  `Option Jv` again stands for a possibly
`undefined` JS value.  JS `Map` keys and `Set` elements are compared with
SameValueZero; in this data set the compared values are primitives or
`undefined` (objects parsed from distinct JSON records are never the same
reference, so two structurally equal objects would stay distinct in JS —
`svz` therefore declares objects and arrays unequal).
-/

/-- SameValueZero on possibly-`undefined` values, restricted as explained
above: primitives compare structurally, objects/arrays by (always distinct)
reference. -/
def svz : Option Jv → Option Jv → Bool
  | none, none => true
  | some Jv.null, some Jv.null => true
  | some (Jv.bool a), some (Jv.bool b) => a == b
  | some (Jv.num a), some (Jv.num b) => a == b
  | some (Jv.str a), some (Jv.str b) => a == b
  | _, _ => false

/-- The index entries `bacteriaData.map(b => [b.identificador, b])`
(server.js lines 13-15): note the key is read from the field named
`identificador`. -/
def bacteriaIndexEntries (ds : List Jv) : List (Option Jv × Jv) :=
  ds.map (fun b => (getField b "identificador", b))

/-- `Map` lookup: the last entry whose key SameValueZero-matches wins
(later duplicate keys overwrite earlier ones at construction). -/
def mapGet (entries : List (Option Jv × Jv)) (k : Option Jv) : Option Jv :=
  (entries.reverse.find? (fun e => svz e.1 k)).map Prod.snd

/-- Status code returned by `GET /api/bacteria/:id` (server.js lines 95-101):
404 when `bacteriaIndex.get(req.params.id)` is falsy, otherwise 200.
`req.params.id` is always a string. -/
def getBacteriaByIdStatus (ds : List Jv) (id : String) : Nat :=
  match mapGet (bacteriaIndexEntries ds) (some (Jv.str id)) with
  | none => 404
  | some b => if truthy b then 200 else 404

/-- `new Set(values).size`: insert values left to right, skipping
SameValueZero-duplicates, and count. -/
def uniqueCount (vs : List (Option Jv)) : Nat :=
  (vs.foldl (fun acc v => if acc.any (fun w => svz w v) then acc else acc ++ [v]) []).length

/-- `GET /api/stats` (server.js lines 155-162): total record count, distinct
`taxonomy?.genus` count, distinct `taxonomy?.species` count. -/
def stats (ds : List Jv) : Nat × Nat × Nat :=
  (ds.length,
   uniqueCount (ds.map (fun b => getO (getField b "taxonomy") "genus")),
   uniqueCount (ds.map (fun b => getO (getField b "taxonomy") "species")))

/-- The transformer's field-mapping table for the scalar `|| null` fields:
source path in the raw record, destination path in the normalized record
(keywords, with its `|| []` default, is handled separately). -/
def scalarMappings : List (List String × List String) :=
  [ (["General", "description"], ["general", "description"]),
    (["General", "DSM-Number"], ["general", "DSM_Number"]),
    (["General", "NCBI tax id", "NCBI tax id"], ["general", "NCBI_tax_id"]),
    (["Name and taxonomic classification", "genus"], ["taxonomy", "genus"]),
    (["Name and taxonomic classification", "species"], ["taxonomy", "species"]),
    (["Name and taxonomic classification", "strain designation"],
      ["taxonomy", "strain_designation"]),
    (["Name and taxonomic classification", "type strain"], ["taxonomy", "type_strain"]),
    (["Name and taxonomic classification", "full scientific name"],
      ["taxonomy", "full_scientific_name"]),
    (["Name and taxonomic classification", "LPSN"], ["LPSN"]),
    (["Culture and growth conditions", "culture medium"], ["culture_conditions", "medium"]),
    (["Culture and growth conditions", "culture temp"], ["culture_conditions", "temperatures"]),
    (["Physiology and metabolism", "compound production"],
      ["physiology_and_metabolism", "compound_production"]),
    (["Physiology and metabolism", "enzymes"], ["physiology_and_metabolism", "enzymes"]),
    (["Safety information", "risk assessment", "biosafety level"], ["biosafety", "level"]),
    (["Safety information", "risk assessment", "biosafety level comment"],
      ["biosafety", "comment"]),
    (["Sequence information", "GC content"], ["sequence_information"]),
    (["External links", "culture collection no."], ["external_links", "culture_collections"]),
    (["External links", "literature"], ["external_links", "literature"]) ]

/-- The end-to-end scenario raw record of the spec (section 8). -/
def raw42 : Jv :=
  Jv.obj [
    ("General", Jv.obj [("BacDive-ID", Jv.str "42"), ("description", Jv.str "x")]),
    ("Name and taxonomic classification",
      Jv.obj [("genus", Jv.str "Bacillus"), ("species", Jv.str "subtilis")])]

/-- The stats end-to-end scenario data set: genus values "A", "A", "B",
species null throughout. -/
def ds8 : List Jv :=
  [Jv.obj [("taxonomy", Jv.obj [("genus", Jv.str "A"), ("species", Jv.null)])],
   Jv.obj [("taxonomy", Jv.obj [("genus", Jv.str "A"), ("species", Jv.null)])],
   Jv.obj [("taxonomy", Jv.obj [("genus", Jv.str "B"), ("species", Jv.null)])]]

/-- Two enumeration pages that both carry the key "a"; `next` present on
page 1 only. -/
def net3 : Nat → Except Unit Jv := fun p =>
  if p = 1 then Except.ok (mkPage [("a", Jv.num 1)] (Jv.str "u") (Jv.num 2))
  else Except.ok (mkPage [("a", Jv.num 1)] Jv.null (Jv.num 2))

/-- A detail response whose record already carries a different BacDive-ID. -/
def resp10 : Except Unit Jv :=
  Except.ok (Jv.obj [("results", Jv.obj [("7",
    Jv.obj [("General", Jv.obj [("BacDive-ID", Jv.str "99"), ("k", Jv.num 1)])])])])

/-- A network oracle for the driver on which every detail fetch succeeds. -/
def netOK : Nat → Except Unit Jv := fun i =>
  Except.ok (Jv.obj [("results", Jv.obj [(toString (i : Int),
    Jv.obj [("General", Jv.obj [])])])])

/-- A network oracle on which every request fails. -/
def netErr : Nat → Except Unit Jv := fun _ => Except.error ()

/-- A raw record whose mapped `type strain` field holds the falsy value
`false`. -/
def raw9 : Jv :=
  Jv.obj [
    ("General", Jv.obj [("BacDive-ID", Jv.str "1")]),
    ("Name and taxonomic classification", Jv.obj [("type strain", Jv.bool false)])]

/-- Enumeration oracle for witnesses: one page of keys "a", "b" with `next`
present, then a page of key "c" without `next`. -/
def netW : Nat → Except Unit Jv := fun p =>
  if p = 1 then Except.ok (mkPage [("a", Jv.num 1), ("b", Jv.num 2)] (Jv.str "u") (Jv.num 3))
  else Except.ok (mkPage [("c", Jv.num 3)] Jv.null (Jv.num 3))

/-- Enumeration oracle for the failure witness: one good page with `next`
present, then a request failure. -/
def netF : Nat → Except Unit Jv := fun p =>
  if p = 1 then Except.ok (mkPage [("a", Jv.num 1)] (Jv.str "u") (Jv.num 9))
  else Except.error ()

/-!  Basic lemmas about the JS-value helpers.  -/

theorem lookupField_setFields_self (fs : List (String × Jv)) (k : String) (v : Jv) :
    lookupField (setFields fs k v) k = some v := by
  induction fs with
  | nil => simp [setFields, lookupField]
  | cons hd tl ih =>
    obtain ⟨k', v'⟩ := hd
    by_cases h : k' = k
    · simp [setFields, h, lookupField]
    · simp [setFields, h, lookupField, ih]

theorem jsOr_of_falsy {o : Option Jv} (d : Jv)
    (h : ∀ v, o = some v → truthy v = false) : jsOr o d = d := by
  cases o with
  | none => rfl
  | some v => simp [jsOr, h v rfl]

/-!  Detail fetcher lemmas.  -/

theorem injectId_general {detail id d : Jv} (h : injectId detail id = some d) :
    getPath d ["General", "BacDive-ID"] = some id := by
  cases detail with
  | obj fs =>
    simp only [injectId] at h
    cases hg : lookupField fs "General" with
    | none =>
      rw [hg] at h
      dsimp only at h
      obtain rfl := Option.some.inj h
      simp [getPath, getO, getField, lookupField_setFields_self, lookupField]
    | some g =>
      rw [hg] at h
      dsimp only at h
      by_cases ht : truthy g
      · rw [if_pos ht] at h
        cases g with
        | obj gfs =>
          obtain rfl := Option.some.inj h
          simp [getPath, getO, getField, lookupField_setFields_self]
        | null => simp at h
        | bool b => simp at h
        | num n => simp at h
        | str s => simp at h
        | arr xs => simp at h
      · rw [if_neg ht] at h
        obtain rfl := Option.some.inj h
        simp [getPath, getO, getField, lookupField_setFields_self, lookupField]
  | null => simp [injectId] at h
  | bool b => simp [injectId] at h
  | num n => simp [injectId] at h
  | str s => simp [injectId] at h
  | arr xs => simp [injectId] at h

/-- Any successful detail fetch passed the validity guard and carries the
requested id in its `General` group (shared elimination lemma). -/
theorem fetch_some_elim {resp : Except Unit Jv} {id d : Jv}
    (h : (fetchDetailsForId resp id).1 = some d) :
    truthy id = true ∧ getPath d ["General", "BacDive-ID"] = some id := by
  unfold fetchDetailsForId at h
  split at h
  · simp at h
  · rename_i hguard
    have hid : truthy id = true := by
      by_contra hf
      exact hguard (Or.inl (by simpa using hf))
    refine ⟨hid, ?_⟩
    split at h
    · simp at h
    · split at h
      · simp at h
      · split at h
        · simp at h
        · split at h
          · simp at h
          · split at h
            · simp at h
            · exact injectId_general (by simpa using h)

/-- A rejected request (network or HTTP failure) always produces the
"no record" result. -/
theorem fetchDetailsForId_error_fst (e : Unit) (id : Jv) :
    (fetchDetailsForId (Except.error e) id).1 = none := by
  unfold fetchDetailsForId
  split <;> rfl

/-- When the raw record's `General["BacDive-ID"]` is present and truthy, the
transformer succeeds with the literal normalized object. -/
theorem transformDetails_eq_some {raw v : Jv}
    (h : getPath raw ["General", "BacDive-ID"] = some v) (ht : truthy v = true) :
    transformDetails raw = some (mkNormalized raw v) := by
  unfold transformDetails
  rw [h]
  dsimp only
  rw [if_pos ht]

/-- The value the driver pushes for identifier `i`, when it pushes one, is a
successful transform whose `identifier` field is the number `i`, and `i` is
nonzero. -/
theorem procId_spec {net : Nat → Except Unit Jv} {i : Nat} {x : Option Jv}
    (h : procId net i = some x) :
    i ≠ 0 ∧ ∃ rec : Jv, x = some rec ∧
      getField rec "identifier" = some (Jv.num (i : Int)) ∧
      ∃ d : Jv, transformDetails d = some rec := by
  unfold procId at h
  cases hf : (fetchDetailsForId (net i) (Jv.num (i : Int))).1 with
  | none => rw [hf] at h; simp at h
  | some detail =>
    rw [hf] at h
    dsimp only at h
    obtain rfl := Option.some.inj h
    obtain ⟨hid, hpath⟩ := fetch_some_elim hf
    have hi0 : (i : Int) ≠ 0 := by simpa [truthy] using hid
    have hi : i ≠ 0 := by exact_mod_cast hi0
    have htrans := transformDetails_eq_some hpath hid
    exact ⟨hi, mkNormalized detail (Jv.num (i : Int)), htrans, rfl, detail, htrans⟩

/-- One unfolding of the driver loop: process the head identifier, appending
the pushed value (if any) and recording a checkpoint at interval
boundaries. -/
theorem mainGo_cons (net : Nat → Except Unit Jv) (interval id : Nat) (rest : List Nat)
    (results : List (Option Jv)) (cps : List (Nat × List (Option Jv))) :
    mainGo net interval (id :: rest) results cps =
      mainGo net interval rest (results ++ (procId net id).toList)
        (if id % interval = 0 then cps ++ [(id, results ++ (procId net id).toList)] else cps) := by
  cases hp : procId net id <;> simp [mainGo, hp, Option.toList]

/-- The driver's final accumulator is the initial one followed by the pushes
of the processed identifiers, in order. -/
theorem mainGo_fst (net : Nat → Except Unit Jv) (interval : Nat) :
    ∀ (ids : List Nat) (results : List (Option Jv)) (cps : List (Nat × List (Option Jv))),
    (mainGo net interval ids results cps).1 = results ++ ids.filterMap (procId net) := by
  intro ids
  induction ids with
  | nil => intro results cps; simp [mainGo]
  | cons id rest ih =>
    intro results cps
    rw [mainGo_cons, ih]
    cases hp : procId net id <;> simp [List.filterMap_cons, hp, Option.toList]

/-- The accumulator never shrinks: whatever it holds on entry is a prefix of
the final dataset. -/
theorem mainGo_results_prefix (net : Nat → Except Unit Jv) (interval : Nat)
    (ids : List Nat) (results : List (Option Jv)) (cps : List (Nat × List (Option Jv))) :
    results <+: (mainGo net interval ids results cps).1 :=
  ⟨ids.filterMap (procId net), (mainGo_fst net interval ids results cps).symm⟩

/-- Checkpoint stability: every checkpoint recorded during the run holds a
prefix (by insertion order) of the final accumulator. -/
theorem mainGo_cps_prefix (net : Nat → Except Unit Jv) (interval : Nat) :
    ∀ (ids : List Nat) (results : List (Option Jv)) (cps : List (Nat × List (Option Jv))),
    (∀ c ∈ cps, c.2 <+: results) →
    ∀ c ∈ (mainGo net interval ids results cps).2,
      c.2 <+: (mainGo net interval ids results cps).1 := by
  intro ids
  induction ids with
  | nil =>
    intro results cps hc c hcm
    simp only [mainGo] at hcm ⊢
    exact hc c hcm
  | cons id rest ih =>
    intro results cps hc c hcm
    rw [mainGo_cons] at hcm ⊢
    refine ih (results ++ (procId net id).toList) _ ?_ c hcm
    intro c' hc'
    by_cases hm : id % interval = 0
    · rw [if_pos hm] at hc'
      rcases List.mem_append.mp hc' with hold | hnew
      · exact (hc c' hold).trans ⟨(procId net id).toList, rfl⟩
      · obtain rfl := List.mem_singleton.mp hnew
        exact List.prefix_rfl
    · rw [if_neg hm] at hc'
      exact (hc c' hc').trans ⟨(procId net id).toList, rfl⟩

/-- Enumerator step on a page whose `next` pointer is truthy: collect the
page's keys and continue with the next page number, one more request
issued. -/
theorem enumGo_ok_next {net : Nat → Except Unit Jv} {page : Nat}
    {fields : List (String × Jv)} {nextv cnt : Jv} (fuel : Nat) (acc : List String)
    (hnet : net page = Except.ok (mkPage fields nextv cnt))
    (hnext : truthy nextv = true) :
    enumGo net (fuel + 1) page acc =
      ((enumGo net fuel (page + 1) (acc ++ fields.map Prod.fst)).1,
       (enumGo net fuel (page + 1) (acc ++ fields.map Prod.fst)).2 + 1) := by
  simp [enumGo, hnet, mkPage, getField, lookupField, objKeys, truthyO, hnext]

/-- Enumerator step on a page whose `next` pointer is falsy: collect the
page's keys and stop after this single request. -/
theorem enumGo_ok_stop {net : Nat → Except Unit Jv} {page : Nat}
    {fields : List (String × Jv)} {nextv cnt : Jv} (fuel : Nat) (acc : List String)
    (hnet : net page = Except.ok (mkPage fields nextv cnt))
    (hnext : truthy nextv = false) :
    enumGo net (fuel + 1) page acc = (acc ++ fields.map Prod.fst, 1) := by
  simp [enumGo, hnet, mkPage, getField, lookupField, objKeys, truthyO, hnext]

/-- Enumerator step on a failing request: return what was collected so far,
after this single (failed) request. -/
theorem enumGo_error {net : Nat → Except Unit Jv} {page : Nat} (fuel : Nat)
    (acc : List String) (hnet : net page = Except.error ()) :
    enumGo net (fuel + 1) page acc = (acc, 1) := by
  simp [enumGo, hnet]

/-- A full enumeration run: pages `page .. page+n` respond, `next` is truthy
strictly before the last of them and falsy on it.  The enumerator returns the
accumulator followed by the concatenation of the page key lists, having
issued exactly `n + 1` requests. -/
theorem enumGo_run_stop (net : Nat → Except Unit Jv) (pages : Nat → List (String × Jv))
    (nextv cnt : Nat → Jv) :
    ∀ (n page : Nat) (acc : List String) (fuel : Nat),
    (∀ p, page ≤ p → p ≤ page + n → net p = Except.ok (mkPage (pages p) (nextv p) (cnt p))) →
    (∀ p, page ≤ p → p < page + n → truthy (nextv p) = true) →
    truthy (nextv (page + n)) = false →
    n < fuel →
    enumGo net fuel page acc =
      (acc ++ (List.range' page (n + 1)).flatMap (fun p => (pages p).map Prod.fst), n + 1) := by
  intro n
  induction n with
  | zero =>
    intro page acc fuel hok hnext hlast hfuel
    obtain ⟨f, rfl⟩ : ∃ f, fuel = f + 1 := ⟨fuel - 1, by omega⟩
    rw [enumGo_ok_stop f acc (hok page le_rfl (by omega)) (by simpa using hlast)]
    simp [List.range'_succ]
  | succ n ih =>
    intro page acc fuel hok hnext hlast hfuel
    obtain ⟨f, rfl⟩ : ∃ f, fuel = f + 1 := ⟨fuel - 1, by omega⟩
    rw [enumGo_ok_next f acc (hok page le_rfl (by omega)) (hnext page le_rfl (by omega))]
    rw [ih (page + 1) (acc ++ (pages page).map Prod.fst) f
      (fun p h1 h2 => hok p (by omega) (by omega))
      (fun p h1 h2 => hnext p (by omega) (by omega))
      (by rw [show page + 1 + n = page + (n + 1) by omega]; exact hlast)
      (by omega)]
    rw [show n + 1 + 1 = n + 2 by omega, List.range'_succ page (n + 1)]
    simp [List.range'_succ, List.append_assoc]

/-- An enumeration run truncated by a request failure: pages
`page .. page+n-1` respond with truthy `next`, the request for page `page+n`
fails.  The enumerator returns exactly the keys collected before the failure,
having issued `n + 1` requests. -/
theorem enumGo_run_err (net : Nat → Except Unit Jv) (pages : Nat → List (String × Jv))
    (nextv cnt : Nat → Jv) :
    ∀ (n page : Nat) (acc : List String) (fuel : Nat),
    (∀ p, page ≤ p → p < page + n → net p = Except.ok (mkPage (pages p) (nextv p) (cnt p))) →
    (∀ p, page ≤ p → p < page + n → truthy (nextv p) = true) →
    net (page + n) = Except.error () →
    n < fuel →
    enumGo net fuel page acc =
      (acc ++ (List.range' page n).flatMap (fun p => (pages p).map Prod.fst), n + 1) := by
  intro n
  induction n with
  | zero =>
    intro page acc fuel hok hnext herr hfuel
    obtain ⟨f, rfl⟩ : ∃ f, fuel = f + 1 := ⟨fuel - 1, by omega⟩
    rw [enumGo_error f acc (by simpa using herr)]
    simp
  | succ n ih =>
    intro page acc fuel hok hnext herr hfuel
    obtain ⟨f, rfl⟩ : ∃ f, fuel = f + 1 := ⟨fuel - 1, by omega⟩
    rw [enumGo_ok_next f acc (hok page le_rfl (by omega)) (hnext page le_rfl (by omega))]
    rw [ih (page + 1) (acc ++ (pages page).map Prod.fst) f
      (fun p h1 h2 => hok p (by omega) (by omega))
      (fun p h1 h2 => hnext p (by omega) (by omega))
      (by rw [show page + 1 + n = page + (n + 1) by omega]; exact herr)
      (by omega)]
    simp [List.range'_succ, List.append_assoc]

/-- Each scalar destination field of the normalized record is exactly the
source chain of its mapping, defaulted to `null` by `||`. -/
theorem mkNormalized_dest (raw ident : Jv) :
    ∀ src dest, (src, dest) ∈ scalarMappings →
    getPath (mkNormalized raw ident) dest = some (jsOr (getPath raw src) Jv.null) := by
  intro src dest hmem
  fin_cases hmem <;>
    simp [mkNormalized, getPath, getO, getField, lookupField]

/-- The keywords destination field is the source chain defaulted to the
empty array. -/
theorem mkNormalized_keywords (raw ident : Jv) :
    getPath (mkNormalized raw ident) ["general", "keywords"] =
      some (jsOr (getPath raw ["General", "keywords"]) (Jv.arr [])) := by
  simp [mkNormalized, getPath, getO, getField, lookupField]

/-- A successful transform output is the literal normalized object for some
identifier value. -/
theorem transformDetails_some_elim {raw rec : Jv} (h : transformDetails raw = some rec) :
    ∃ ident, rec = mkNormalized raw ident := by
  unfold transformDetails at h
  cases hid : getPath raw ["General", "BacDive-ID"] with
  | none => rw [hid] at h; simp at h
  | some v =>
    rw [hid] at h
    dsimp only at h
    by_cases ht : truthy v = true
    · rw [if_pos ht] at h
      exact ⟨v, (Option.some.inj h).symm⟩
    · rw [if_neg ht] at h
      simp at h

/-- C1: every element the driver's loop appends to the accumulator is a
successful transformer output (never the null of a failed transform) carrying
a non-null numeric identifier — the identifier of the iteration that produced
it — and the identifiers across the final dataset are pairwise distinct. -/
theorem claim_C1_unique_nonnull_identifiers (net : Nat → Except Unit Jv)
    (startId endId interval : Nat) :
    (∀ x ∈ (mainRun net startId endId interval).1, ∃ rec : Jv, x = some rec ∧
        (∃ i : Nat, i ≠ 0 ∧ getField rec "identifier" = some (Jv.num (i : Int))) ∧
        ∃ d : Jv, transformDetails d = some rec) ∧
    ((mainRun net startId endId interval).1.map
        (fun x => x.bind (fun rec => getField rec "identifier"))).Nodup := by
  have hfst : (mainRun net startId endId interval).1 =
      (List.range' startId (endId + 1 - startId)).filterMap (procId net) := by
    unfold mainRun
    simpa using mainGo_fst net interval (List.range' startId (endId + 1 - startId)) [] []
  constructor
  · intro x hx
    rw [hfst] at hx
    obtain ⟨i, hmem, hpi⟩ := List.mem_filterMap.mp hx
    obtain ⟨hi0, rec, rfl, hident, d, htr⟩ := procId_spec hpi
    exact ⟨rec, rfl, ⟨i, hi0, hident⟩, d, htr⟩
  · rw [hfst, List.map_filterMap]
    refine List.Nodup.filterMap ?_ (List.nodup_range' _ _)
    intro a a' b hb hb'
    rw [Option.mem_def, Option.map_eq_some'] at hb hb'
    obtain ⟨x, hx, hgx⟩ := hb
    obtain ⟨x', hx', hgx'⟩ := hb'
    obtain ⟨_, rec, rfl, hid, _⟩ := procId_spec hx
    obtain ⟨_, rec', rfl, hid', _⟩ := procId_spec hx'
    have hba : b = some (Jv.num (a : Int)) := by rw [← hgx]; simp [hid]
    have hba' : b = some (Jv.num (a' : Int)) := by rw [← hgx']; simp [hid']
    rw [hba] at hba'
    have hnum : Jv.num (a : Int) = Jv.num (a' : Int) := Option.some.inj hba'
    have : (a : Int) = (a' : Int) := Jv.num.inj hnum
    exact_mod_cast this

/-- C1 witness: the theorem applied to a concrete two-identifier run on
which every fetch succeeds. -/
theorem claim_C1_witness :
    (∀ x ∈ (mainRun netOK 1 2 1000).1, ∃ rec : Jv, x = some rec ∧
        (∃ i : Nat, i ≠ 0 ∧ getField rec "identifier" = some (Jv.num (i : Int))) ∧
        ∃ d : Jv, transformDetails d = some rec) ∧
    ((mainRun netOK 1 2 1000).1.map
        (fun x => x.bind (fun rec => getField rec "identifier"))).Nodup :=
  claim_C1_unique_nonnull_identifiers netOK 1 2 1000

/-- C2: the lookup-by-identifier endpoint can never return a record that the
transformer produced.  The index is built on the field `identificador`
(server.js line 14), which no NormalizedRecord has — records carry
`identifier` — so the endpoint answers 404 even for an identifier present in
the dataset.  Here the spec scenario record with identifier "42" is in the
loaded dataset, yet `GET /api/bacteria/42` yields 404. -/
theorem claim_C2_lookup_by_id_bug :
    (transformDetails raw42).bind (fun rec => getField rec "identifier") =
      some (Jv.str "42") ∧
    (transformDetails raw42).map (fun rec => getBacteriaByIdStatus [rec] "42") = some 404 :=
  ⟨rfl, rfl⟩

/-- C3 counterexample: two pages both carrying key "a" (`next` present only
on page 1).  The enumerator returns the list `["a", "a"]` — the concatenation
of the page key lists, which is not deduplicated — refuting the claim that
the result is the deduplicated union of the page key-sets. -/
theorem claim_C3_cex :
    fetchIdsForGenus net3 3 = (["a", "a"], 2) ∧ ¬ (fetchIdsForGenus net3 3).1.Nodup := by
  refine ⟨rfl, ?_⟩
  show ¬ (["a", "a"] : List String).Nodup
  simp

/-- C3 (amended): across N pages with `next` present on pages 1..N-1 and
absent on page N, the enumerator returns the concatenation of the per-page
key lists — equal to their union as a set, but with duplicates across pages
retained — and issues exactly N page requests, none for page N+1. -/
theorem claim_C3_enumerator_concatenates (net : Nat → Except Unit Jv)
    (pages : Nat → List (String × Jv)) (nextv cnt : Nat → Jv) (N fuel : Nat)
    (hN : 1 ≤ N)
    (hok : ∀ p, 1 ≤ p → p ≤ N → net p = Except.ok (mkPage (pages p) (nextv p) (cnt p)))
    (hnext : ∀ p, 1 ≤ p → p < N → truthy (nextv p) = true)
    (hlast : truthy (nextv N) = false)
    (hfuel : N ≤ fuel) :
    fetchIdsForGenus net fuel =
      ((List.range' 1 N).flatMap (fun p => (pages p).map Prod.fst), N) := by
  obtain ⟨m, rfl⟩ : ∃ m, N = m + 1 := ⟨N - 1, by omega⟩
  unfold fetchIdsForGenus
  rw [enumGo_run_stop net pages nextv cnt m 1 [] fuel
    (fun p h1 h2 => hok p h1 (by omega))
    (fun p h1 h2 => hnext p h1 (by omega))
    (by rw [show 1 + m = m + 1 by omega]; exact hlast)
    (by omega)]
  simp

/-- C3 witness: the amended theorem applied to a concrete two-page oracle
with keys "a", "b" on page 1 and "c" on page 2. -/
theorem claim_C3_witness : fetchIdsForGenus netW 2 = (["a", "b", "c"], 2) := by
  have h := claim_C3_enumerator_concatenates netW
    (fun p => if p = 1 then [("a", Jv.num 1), ("b", Jv.num 2)] else [("c", Jv.num 3)])
    (fun p => if p = 1 then Jv.str "u" else Jv.null)
    (fun _ => Jv.num 3) 2 2 (by omega)
    (fun p h1 h2 => by interval_cases p <;> rfl)
    (fun p h1 h2 => by interval_cases p; rfl)
    rfl (by omega)
  exact h.trans (by rfl)

/-- C4: the end-to-end transform scenario — the spec's raw record yields a
normalized record with identifier "42", genus "Bacillus", species "subtilis"
and a null culture medium. -/
theorem claim_C4_transform_scenario :
    (transformDetails raw42).bind (fun rec => getField rec "identifier") =
      some (Jv.str "42") ∧
    (transformDetails raw42).bind (fun rec => getPath rec ["taxonomy", "genus"]) =
      some (Jv.str "Bacillus") ∧
    (transformDetails raw42).bind (fun rec => getPath rec ["taxonomy", "species"]) =
      some (Jv.str "subtilis") ∧
    (transformDetails raw42).bind (fun rec => getPath rec ["culture_conditions", "medium"]) =
      some Jv.null :=
  ⟨rfl, rfl, rfl, rfl⟩

/-- C5: sub-fatal failures never propagate.  A failed detail request yields
the "no record" result, and an enumeration whose page-k request fails returns
exactly the identifiers collected on the pages before the failure. -/
theorem claim_C5_failures_swallowed :
    (∀ (e : Unit) (id : Jv), (fetchDetailsForId (Except.error e) id).1 = none) ∧
    (∀ (net : Nat → Except Unit Jv) (pages : Nat → List (String × Jv))
        (nextv cnt : Nat → Jv) (k fuel : Nat),
      1 ≤ k →
      (∀ p, 1 ≤ p → p < k → net p = Except.ok (mkPage (pages p) (nextv p) (cnt p))) →
      (∀ p, 1 ≤ p → p < k → truthy (nextv p) = true) →
      net k = Except.error () →
      k ≤ fuel →
      fetchIdsForGenus net fuel =
        ((List.range' 1 (k - 1)).flatMap (fun p => (pages p).map Prod.fst), k)) := by
  constructor
  · exact fetchDetailsForId_error_fst
  · intro net pages nextv cnt k fuel hk hok hnext herr hfuel
    obtain ⟨m, rfl⟩ : ∃ m, k = m + 1 := ⟨k - 1, by omega⟩
    unfold fetchIdsForGenus
    rw [enumGo_run_err net pages nextv cnt m 1 [] fuel
      (fun p h1 h2 => hok p h1 (by omega))
      (fun p h1 h2 => hnext p h1 (by omega))
      (by rw [show 1 + m = m + 1 by omega]; exact herr)
      (by omega)]
    simp

/-- C5 witness: a failed detail fetch for id 5 returns nothing, and an
enumeration failing at page 2 returns exactly page 1's keys. -/
theorem claim_C5_witness :
    (fetchDetailsForId (Except.error ()) (Jv.num 5)).1 = none ∧
    fetchIdsForGenus netF 4 = (["a"], 2) := by
  constructor
  · exact claim_C5_failures_swallowed.1 () (Jv.num 5)
  · have h := claim_C5_failures_swallowed.2 netF
      (fun _ => [("a", Jv.num 1)]) (fun _ => Jv.str "u") (fun _ => Jv.num 9) 2 4
      (by omega)
      (fun p h1 h2 => by interval_cases p; rfl)
      (fun p h1 h2 => by interval_cases p; rfl)
      rfl (by omega)
    exact h.trans (by rfl)

/-- C6: the detail fetcher rejects the empty string, null, and the sentinel
string "0" with no network request issued (request count 0), whatever the
network would have answered. -/
theorem claim_C6_fetcher_rejects_invalid_ids (resp : Except Unit Jv) :
    fetchDetailsForId resp Jv.null = (none, 0) ∧
    fetchDetailsForId resp (Jv.str "") = (none, 0) ∧
    fetchDetailsForId resp (Jv.str "0") = (none, 0) :=
  ⟨rfl, rfl, rfl⟩

/-- C7 counterexample: a failure-free two-identifier run with checkpoint
interval 2.  The checkpoint written at the final boundary (id 2) holds the
whole two-record dataset, i.e. it equals the final dataset rather than being
a strict prefix of it — no failure occurred after that checkpoint, so the
claim's strictness fails. -/
theorem claim_C7_cex :
    (mainRun netOK 1 2 2).2.map Prod.snd = [(mainRun netOK 1 2 2).1] ∧
    (mainRun netOK 1 2 2).1.length = 2 :=
  ⟨rfl, rfl⟩

/-- C7 (amended): every checkpoint written during a run of the driver is a
prefix (by insertion order, not necessarily strict — the checkpoint at the
final boundary may equal the whole dataset) of the final dataset, regardless
of which fetches fail. -/
theorem claim_C7_checkpoint_prefix (net : Nat → Except Unit Jv)
    (startId endId interval : Nat) (c : Nat × List (Option Jv))
    (hc : c ∈ (mainRun net startId endId interval).2) :
    c.2 <+: (mainRun net startId endId interval).1 := by
  unfold mainRun at hc ⊢
  exact mainGo_cps_prefix net interval (List.range' startId (endId + 1 - startId)) [] []
    (by intro c' hc'; simp at hc') c hc

/-- C7 witness: the amended theorem applied to the all-failures run, whose
first checkpoint is the empty snapshot. -/
theorem claim_C7_witness : ([] : List (Option Jv)) <+: (mainRun netErr 1 2 1).1 :=
  claim_C7_checkpoint_prefix netErr 1 2 1 (1, []) (by
    show (1, ([] : List (Option Jv))) ∈ [(1, ([] : List (Option Jv))), (2, [])]
    exact List.mem_cons_self _ _)

/-- C8: the stats scenario — three records with genus "A", "A", "B" and null
species give totalRecords 3, uniqueGenera 2 and uniqueSpecies 1 (the JS Set
counts the shared null species value once). -/
theorem claim_C8_stats_scenario : stats ds8 = (3, 2, 1) := rfl

/-- C9: in any successful transform, a mapped scalar source field that is
present but falsy — or absent altogether — produces `null` in its
destination field, and the keywords field likewise falls back to the empty
list, so falsy upstream values are indistinguishable from absent ones. -/
theorem claim_C9_falsy_fields_normalized (raw rec : Jv)
    (h : transformDetails raw = some rec) :
    (∀ src dest, (src, dest) ∈ scalarMappings →
      (∀ v, getPath raw src = some v → truthy v = false → getPath rec dest = some Jv.null) ∧
      (getPath raw src = none → getPath rec dest = some Jv.null)) ∧
    (∀ v, getPath raw ["General", "keywords"] = some v → truthy v = false →
      getPath rec ["general", "keywords"] = some (Jv.arr [])) ∧
    (getPath raw ["General", "keywords"] = none →
      getPath rec ["general", "keywords"] = some (Jv.arr [])) := by
  obtain ⟨ident, rfl⟩ := transformDetails_some_elim h
  refine ⟨fun src dest hmem => ?_, fun v hv hf => ?_, fun hv => ?_⟩
  · have hd := mkNormalized_dest raw ident src dest hmem
    constructor
    · intro v hv hf
      rw [hd, hv]
      simp [jsOr, hf]
    · intro hv
      rw [hd, hv]
      simp [jsOr]
  · rw [mkNormalized_keywords, hv]
    simp [jsOr, hf]
  · rw [mkNormalized_keywords, hv]
    simp [jsOr]

/-- C9 witness: a raw record whose `type strain` holds the falsy value
`false` transforms to a record whose `taxonomy.type_strain` is null — the
claim's own example. -/
theorem claim_C9_witness :
    transformDetails raw9 = some (mkNormalized raw9 (Jv.str "1")) ∧
    getPath (mkNormalized raw9 (Jv.str "1")) ["taxonomy", "type_strain"] = some Jv.null := by
  refine ⟨rfl, ?_⟩
  exact ((claim_C9_falsy_fields_normalized raw9 (mkNormalized raw9 (Jv.str "1")) rfl).1
    (["Name and taxonomic classification", "type strain"]) (["taxonomy", "type_strain"])
    (by decide)).1 (Jv.bool false) rfl rfl

/-- C10: whenever the detail fetcher returns a record, that record's
`General` group carries a `BacDive-ID` equal to the requested id — the
fetcher overwrites the field unconditionally, even over an existing
different value. -/
theorem claim_C10_fetch_sets_requested_id {resp : Except Unit Jv} {id d : Jv}
    (h : (fetchDetailsForId resp id).1 = some d) :
    getPath d ["General", "BacDive-ID"] = some id :=
  (fetch_some_elim h).2

/-- C10 witness: the fetcher applied to a response whose record already
carried BacDive-ID "99"; the returned record holds the requested id 7. -/
theorem claim_C10_witness :
    (fetchDetailsForId resp10 (Jv.num 7)).1 =
      some (Jv.obj [("General", Jv.obj [("BacDive-ID", Jv.num 7), ("k", Jv.num 1)])]) ∧
    getPath (Jv.obj [("General", Jv.obj [("BacDive-ID", Jv.num 7), ("k", Jv.num 1)])])
      ["General", "BacDive-ID"] = some (Jv.num 7) :=
  ⟨rfl, @claim_C10_fetch_sets_requested_id resp10 (Jv.num 7)
    (Jv.obj [("General", Jv.obj [("BacDive-ID", Jv.num 7), ("k", Jv.num 1)])]) rfl⟩
